import Mathlib

/-!
Verification development for the `mostlyai` tutorial repository.

The repository consists of two notebooks:
  * `docs/tutorials/getting-started/getting-started.ipynb` (the
    "getting started" notebook), and
  * the conditional-generation notebook (`src/unnamed/part_000`).

Both are glue code around a remote synthetic-data SDK.  This file embeds

  1. the local tabular computations the notebooks perform (the
    construction of the census seed dataframe, and the AirBnB
    `LAT_LONG` pre-processing) over a small column-oriented dataframe
    model with an explicit heap for object identity;
  2. the SDK call sites of both notebooks, transcribed literally
    (dictionary keys in source order, arguments by name);
  3. the execution of the conditional-generation notebook as a function
    of the fetched CSV data, an oracle standing for the remote service,
    and a pseudo-random-generator state.

All definitions are executable; theorems about the call sites are
settled by `decide` over the transcription.
-/

set_option autoImplicit false
set_option maxRecDepth 8192

namespace MostlyNb

/-- A dataframe cell value.  The notebooks only render values to
strings (`astype(str)`), concatenate those strings and compare values
for equality, so a value is either a string cell or a numeric cell
carrying its decimal rendering (IEEE floats are not re-modelled: the
rendering of a numeric cell is the string `str(x)` would produce). -/
inductive Value where
  | vStr (s : String)
  | vNum (s : String)
deriving DecidableEq, Repr

/-- The string `str(v)` produces in Python. -/
def Value.render : Value → String
  | .vStr s => s
  | .vNum s => s

/-- Python `astype(str)` applied to a single cell. -/
def Value.astypeStr (v : Value) : Value := .vStr v.render

/-- A column-oriented dataframe: an ordered list of named columns,
matching how the notebooks use pandas (all series operations are
column-wise). -/
structure DataFrame where
  cols : List (String × List Value)
deriving DecidableEq, Repr

/-- The empty dataframe. -/
def DataFrame.empty : DataFrame := ⟨[]⟩

instance : Inhabited DataFrame := ⟨DataFrame.empty⟩

/-- The column names of a dataframe, in order. -/
def DataFrame.colNames (d : DataFrame) : List String := d.cols.map Prod.fst

/-- Column read `df[c]`: the values of column `c` (empty when the column is
absent; the notebooks only read columns that exist). -/
def DataFrame.getCol (d : DataFrame) (c : String) : List Value :=
  ((d.cols.find? (fun p => p.1 = c)).map Prod.snd).getD []

/-- Column assignment `df[c] = vs`: replace column `c` when present, otherwise append it
as the last column (pandas appends new columns at the end). -/
def DataFrame.setCol (d : DataFrame) (c : String) (vs : List Value) : DataFrame :=
  if c ∈ d.colNames then
    ⟨d.cols.map (fun p => if p.1 = c then (c, vs) else p)⟩
  else
    ⟨d.cols ++ [(c, vs)]⟩

/-- Pandas `df.drop(columns=cs)`: returns a new dataframe without the listed
columns. -/
def DataFrame.dropCols (d : DataFrame) (cs : List String) : DataFrame :=
  ⟨d.cols.filter (fun p => ¬ p.1 ∈ cs)⟩

/-- Column selection `df[cs]`: returns a new dataframe holding the selected columns in
the given order. -/
def DataFrame.select (d : DataFrame) (cs : List String) : DataFrame :=
  ⟨cs.map (fun c => (c, d.getCol c))⟩

/-- Pandas `df.copy()`: the value copied (object identity is handled by the
heap model below). -/
def DataFrame.copy (d : DataFrame) : DataFrame := ⟨d.cols⟩

/-- Series-level `series.astype(str)`. -/
def seriesAstypeStr (vs : List Value) : List Value := vs.map Value.astypeStr

/-- Series plus scalar: `series + s` for a scalar string `s` (pandas broadcasts the
scalar). -/
def seriesAddScalar (vs : List Value) (s : String) : List Value :=
  vs.map (fun v => .vStr (v.render ++ s))

/-- Series plus series: `series + series` on string series (element-wise concatenation). -/
def seriesAddSeries (xs ys : List Value) : List Value :=
  List.zipWith (fun a b => Value.vStr (a.render ++ b.render)) xs ys

/-- The series `df["latitude"].astype(str) + ", " + df["longitude"].astype(str)`
from the conditional-generation notebook. -/
def latLongSeries (d : DataFrame) : List Value :=
  seriesAddSeries (seriesAddScalar (seriesAstypeStr (d.getCol "latitude")) ", ")
    (seriesAstypeStr (d.getCol "longitude"))

/-- The value-level effect of the AirBnB pre-processing cell:
`df = df_orig.copy()`;
`df["LAT_LONG"] = df["latitude"].astype(str) + ", " + df["longitude"].astype(str)`;
`df = df.drop(columns=["latitude", "longitude"])`;
`df_seed = df[["neighbourhood", "LAT_LONG"]]`.
Returns the final values of `df` and `df_seed`. -/
def airbnbPreprocess (df_orig : DataFrame) : DataFrame × DataFrame :=
  let df := df_orig.copy
  let df := df.setCol "LAT_LONG" (latLongSeries df)
  let df := df.dropCols ["latitude", "longitude"]
  let df_seed := df.select ["neighbourhood", "LAT_LONG"]
  (df, df_seed)

/-! ### Heap model

Python dataframes are mutable objects; `df["LAT_LONG"] = ...` mutates
the object in place while `.copy()`, `.drop(...)` and column selection
allocate new objects.  A heap is a list of dataframe objects addressed
by allocation index. -/

/-- The heap of dataframe objects. -/
def Heap := List DataFrame

/-- Read the object at reference `r`. -/
def Heap.read (h : Heap) (r : Nat) : DataFrame := List.getD h r DataFrame.empty

/-- Overwrite the object at reference `r` (in-place mutation). -/
def Heap.write (h : Heap) (r : Nat) (d : DataFrame) : Heap := List.set h r d

/-- Allocate a fresh object, returning the extended heap and the new
reference. -/
def Heap.alloc (h : Heap) (d : DataFrame) : Heap × Nat :=
  (List.append h [d], List.length h)

/-- The AirBnB pre-processing cell over the heap: takes the reference
of `df_orig`, returns the heap after the cell together with the
references bound to `df` and `df_seed`.  `.copy()` allocates,
`df["LAT_LONG"] = ...` mutates in place, `df.drop(...)` and
`df[seed_cols]` allocate new objects that are rebound. -/
def airbnbPreprocessCell (h : Heap) (df_orig : Nat) : Heap × Nat × Nat :=
  let a1 := h.alloc ((h.read df_orig).copy)
  let h1 := a1.1
  let df := a1.2
  let h2 := h1.write df ((h1.read df).setCol "LAT_LONG" (latLongSeries (h1.read df)))
  let a2 := h2.alloc ((h2.read df).dropCols ["latitude", "longitude"])
  let h3 := a2.1
  let df2 := a2.2
  let a3 := h3.alloc ((h3.read df2).select ["neighbourhood", "LAT_LONG"])
  (a3.1, df2, a3.2)

/-! ### SDK call sites

Both notebooks create a single SDK object (`mostly = MostlyAI()`) and
invoke remote procedures on it.  The call sites are transcribed
literally: dictionary literals keep their keys in source order in the
`keys` field, dataframe-valued arguments are recorded by the Python
variable passed, and the uses of each call's result are recorded as a
list of dataframe-operation tags. -/

/-- One entry of a `columns` list: a dictionary literal with the key
list `keys` (in source order) and the transcribed values. -/
structure ColumnEntry where
  keys : List String
  name : String
  model_encoding_type : String
deriving DecidableEq, Repr

/-- A `tabular_model_configuration` dictionary literal. -/
structure ModelConfig where
  keys : List String
  max_training_time : Int
deriving DecidableEq, Repr

/-- One entry of a config's `tables` list. -/
structure TableEntry where
  keys : List String
  name : String
  dataVar : String
  columns : Option (List ColumnEntry)
  tabular_model_configuration : Option ModelConfig
deriving DecidableEq, Repr

/-- A config dictionary passed to `train`. -/
structure TrainConfig where
  keys : List String
  name : String
  tables : List TableEntry
deriving DecidableEq, Repr

/-- One method invocation on the SDK object, with the variable the
result is bound to and (for `probe`/`generate`) the operations later
applied to that result. -/
inductive SdkCall where
  | train (config : TrainConfig) (start wait : Option Bool) (resultVar : String)
  | probe (generatorVar : String) (size : Option Int) (seedVar : Option String)
      (resultVar : String) (resultUses : List String)
  | generate (generatorVar : String) (size : Int) (resultVar : String)
      (resultUses : List String)
  | otherMethod (method : String)
deriving DecidableEq, Repr

/-- getting-started.ipynb: `mostly.train(config={...}, start=True, wait=True)`,
bound to `g`.  The table entry has keys `name`, `data`,
`tabular_model_configuration`; the model configuration sets only
`max_training_time: 1`. -/
def gsTrain : SdkCall :=
  .train
    { keys := ["name", "tables"]
      name := "US Census Income"
      tables :=
        [{ keys := ["name", "data", "tabular_model_configuration"]
           name := "census"
           dataVar := "df_original"
           columns := none
           tabular_model_configuration :=
             some { keys := ["max_training_time"], max_training_time := 1 } }] }
    (some true) (some true) "g"

/-- getting-started.ipynb: `df_samples = mostly.probe(g, size=100)`;
the result is displayed as a dataframe. -/
def gsProbeSize : SdkCall :=
  .probe "g" (some 100) none "df_samples" ["display"]

/-- getting-started.ipynb: `sd = mostly.generate(g, size=100_000)`;
the result's tabular data is read via `sd.data()`. -/
def gsGenerate : SdkCall :=
  .generate "g" 100000 "sd" ["data"]

/-- getting-started.ipynb: `df_samples = mostly.probe(g, seed=df_seed)`;
the result is displayed as a dataframe. -/
def gsProbeSeed : SdkCall :=
  .probe "g" none (some "df_seed") "df_samples" ["display"]

/-- The SDK calls of the getting-started notebook, in program order.
(`g.reports(display=True)` is a call on the Generator handle, not on
the SDK object.) -/
def gettingStartedCalls : List SdkCall :=
  [gsTrain, gsProbeSize, gsGenerate, gsProbeSeed]

/-- conditional-generation notebook: the census `mostly.train(config={...})`
call, with `start` and `wait` omitted, bound to `g`. -/
def cgTrainCensus : SdkCall :=
  .train
    { keys := ["name", "tables"]
      name := "Conditional Generation Tutorial Census"
      tables :=
        [{ keys := ["name", "data", "tabular_model_configuration"]
           name := "data"
           dataVar := "df"
           columns := none
           tabular_model_configuration :=
             some { keys := ["max_training_time"], max_training_time := 1 } }] }
    none none "g"

/-- conditional-generation notebook:
`syn = mostly.probe(generator=g, seed=seed)`; the result is used via
`syn.shape[0]`, `syn.shape[1]`, `syn.sample(n=10)`, the boolean row
selection `syn[syn.sex == "Female"]` with column attributes `.sex` and
`.age`, and `.plot.kde(...)`. -/
def cgProbeCensus : SdkCall :=
  .probe "g" none (some "seed") "syn"
    ["shape", "shape", "sample", "column-attr", "boolean-index", "column-attr", "plot"]

/-- conditional-generation notebook: the AirBnB
`g_airbnb = mostly.train(config=config)` call, with `start` and `wait`
omitted.  The table entry additionally has a `columns` list of ten
entries, each a dictionary with exactly the keys `name` and
`model_encoding_type`. -/
def cgTrainAirbnb : SdkCall :=
  .train
    { keys := ["name", "tables"]
      name := "Conditional Generation Tutorial AirBnB"
      tables :=
        [{ keys := ["name", "data", "columns", "tabular_model_configuration"]
           name := "AirBnB"
           dataVar := "df"
           columns := some
             [{ keys := ["name", "model_encoding_type"],
                name := "neighbourhood_group", model_encoding_type := "TABULAR_CATEGORICAL" },
              { keys := ["name", "model_encoding_type"],
                name := "neighbourhood", model_encoding_type := "TABULAR_CATEGORICAL" },
              { keys := ["name", "model_encoding_type"],
                name := "room_type", model_encoding_type := "TABULAR_CATEGORICAL" },
              { keys := ["name", "model_encoding_type"],
                name := "price", model_encoding_type := "TABULAR_NUMERIC_AUTO" },
              { keys := ["name", "model_encoding_type"],
                name := "minimum_nights", model_encoding_type := "TABULAR_NUMERIC_AUTO" },
              { keys := ["name", "model_encoding_type"],
                name := "number_of_reviews", model_encoding_type := "TABULAR_NUMERIC_AUTO" },
              { keys := ["name", "model_encoding_type"],
                name := "last_review", model_encoding_type := "TABULAR_DATETIME" },
              { keys := ["name", "model_encoding_type"],
                name := "reviews_per_month", model_encoding_type := "TABULAR_NUMERIC_AUTO" },
              { keys := ["name", "model_encoding_type"],
                name := "availability_365", model_encoding_type := "TABULAR_NUMERIC_AUTO" },
              { keys := ["name", "model_encoding_type"],
                name := "LAT_LONG", model_encoding_type := "TABULAR_LAT_LONG" }]
           tabular_model_configuration :=
             some { keys := ["max_training_time"], max_training_time := 2 } }] }
    none none "g_airbnb"

/-- conditional-generation notebook:
`syn_partial = mostly.probe(generator=g_airbnb, seed=df_seed)`; the
result is used via `syn_partial.shape[0]`, `syn_partial.shape[1]` and
passed to `plot_manhatten`, which reads `df.price` and plots. -/
def cgProbeAirbnb : SdkCall :=
  .probe "g_airbnb" none (some "df_seed") "syn_partial"
    ["shape", "shape", "column-attr", "plot"]

/-- The SDK calls of the conditional-generation notebook, in program
order. -/
def condGenCalls : List SdkCall :=
  [cgTrainCensus, cgProbeCensus, cgTrainAirbnb, cgProbeAirbnb]

/-- All SDK calls of the repository. -/
def allCalls : List SdkCall := gettingStartedCalls ++ condGenCalls

/-- The method name of an SDK call. -/
def SdkCall.methodName : SdkCall → String
  | .train _ _ _ _ => "train"
  | .probe _ _ _ _ _ => "probe"
  | .generate _ _ _ _ => "generate"
  | .otherMethod m => m

/-- The methods invoked on a notebook's SDK object. -/
def callMethods (calls : List SdkCall) : List String :=
  calls.map SdkCall.methodName

/-- Equality of the underlying sets of two lists of strings. -/
def listSetEq (xs ys : List String) : Bool :=
  xs.all (fun x => x ∈ ys) && ys.all (fun y => y ∈ xs)

/-- The keys a table entry may carry, per the spec's interface
`{name, data, columns?, tabular_model_configuration?}`. -/
def allowedTableKeys : List String :=
  ["name", "data", "columns", "tabular_model_configuration"]

/-- A table entry is a mapping containing the keys `name` and `data`,
optionally `columns` and `tabular_model_configuration`, and no other
keys. -/
def tableEntryShapeOK (t : TableEntry) : Bool :=
  "name" ∈ t.keys && "data" ∈ t.keys && t.keys.all (fun k => k ∈ allowedTableKeys)

/-- A `train` call's config has exactly the keys `name` and `tables`
and every table entry is well-shaped; non-`train` calls are exempt. -/
def SdkCall.trainConfigShapeOK : SdkCall → Bool
  | .train c _ _ _ => c.keys = ["name", "tables"] && c.tables.all tableEntryShapeOK
  | _ => true

/-- The encoding types recognized by the spec. -/
def allowedEncodings : List String :=
  ["TABULAR_CATEGORICAL", "TABULAR_NUMERIC_AUTO", "TABULAR_DATETIME", "TABULAR_LAT_LONG"]

/-- A column entry consists of exactly the two keys `name` and
`model_encoding_type`, and its encoding type is recognized. -/
def columnEntryOK (c : ColumnEntry) : Bool :=
  c.keys = ["name", "model_encoding_type"] && c.model_encoding_type ∈ allowedEncodings

/-- A model configuration sets only `max_training_time`, with a
positive number of minutes. -/
def modelConfigOK (m : ModelConfig) : Bool :=
  m.keys = ["max_training_time"] && decide (0 < m.max_training_time)

/-- Every column entry and every model configuration appearing in a
call satisfies `columnEntryOK` and `modelConfigOK`. -/
def SdkCall.columnAndModelConfigOK : SdkCall → Bool
  | .train c _ _ _ =>
      c.tables.all (fun t =>
        (t.columns.getD []).all columnEntryOK &&
          (t.tabular_model_configuration.map modelConfigOK).getD true)
  | _ => true

/-- The operations the notebooks apply to tabular results. -/
def dataFrameOps : List String :=
  ["display", "shape", "sample", "column-attr", "boolean-index", "plot"]

/-- A `probe` call passes a generator, at most one of `size` and
`seed`, and its result is used only through dataframe operations;
non-`probe` calls are exempt. -/
def SdkCall.probeShapeOK : SdkCall → Bool
  | .probe gv size seedVar _ uses =>
      gv ≠ "" && !(size.isSome && seedVar.isSome) &&
        !uses.isEmpty && uses.all (fun u => u ∈ dataFrameOps)
  | _ => true

/-- A `train` call either passes `start=True` and `wait=True`
explicitly or omits both arguments; non-`train` calls are exempt. -/
def SdkCall.trainWaitsExplicitOrDefault : SdkCall → Bool
  | .train _ s w _ =>
      (s = some true && w = some true) || (s = none && w = none)
  | _ => true

/-- Modelled from the spec: `train(config, start: bool = True,
wait: bool = True)` — the declared defaults of the SDK's `train` (the
SDK itself is outside this repository).  The effective value of `wait`
for a `train` call. -/
def SdkCall.effectiveWait : SdkCall → Bool
  | .train _ _ w _ => w.getD true
  | _ => true

/-- Modelled from the spec: the effective value of `start` for a
`train` call (declared default `True`). -/
def SdkCall.effectiveStart : SdkCall → Bool
  | .train _ s _ _ => s.getD true
  | _ => true

/-- Scans a call list in program order and checks that every generator
variable passed to `probe` or `generate` was bound by an earlier
`train` call; `acc` holds the generator variables trained so far. -/
def trainedBeforeUse : List SdkCall → List String → Bool
  | [], _ => true
  | .train _ _ _ r :: rest, acc => trainedBeforeUse rest (r :: acc)
  | .probe gv _ _ _ _ :: rest, acc => gv ∈ acc && trainedBeforeUse rest acc
  | .generate gv _ _ _ :: rest, acc => gv ∈ acc && trainedBeforeUse rest acc
  | .otherMethod _ :: rest, acc => trainedBeforeUse rest acc

/-! ### Execution of the conditional-generation notebook

The notebook's outputs are modelled as a function of the fetched CSV
data, an oracle standing for the remote training/sampling service, and
the initial state of the pseudo-random generator. -/

/-- The state of numpy's global pseudo-random generator. -/
abbrev PrngState := Nat

/-- Modelled from the spec of `np.random.seed(k)`: puts the generator
into a state determined by `k` alone.  (numpy's MT19937 is not
re-implemented; this development relies only on `np.random` being a
deterministic function of its seeded state.) -/
def npSeed (k : Nat) : PrngState := k

/-- One step of the modelled pseudo-random generator (a linear
congruential step standing in for the MT19937 stream; deterministic,
as the real generator is). -/
def prngNext (s : PrngState) : Nat × PrngState :=
  let s' := (1103515245 * s + 12345) % 2147483648
  (s', s')

/-- Model of `np.random.choice([a, b], p=[p0, 1 - p0])` for a single draw:
a deterministic function of the generator state. -/
def npChoice2 (a b : String) (p0 : ℚ) (s : PrngState) : String × PrngState :=
  let (r, s') := prngNext s
  (if (r : ℚ) / 2147483648 < p0 then a else b, s')

/-- Model of `np.random.choice([a, b], n, p=[p0, 1 - p0])`: `n` draws. -/
def npChoiceList (a b : String) (p0 : ℚ) : Nat → PrngState → List String × PrngState
  | 0, s => ([], s)
  | n + 1, s =>
      let (x, s') := npChoice2 a b p0 s
      let (xs, s'') := npChoiceList a b p0 n s'
      (x :: xs, s'')

/-- Pandas `(series == v).mean()`: the fraction of entries equal to `v`. -/
def seriesEqMean (vs : List Value) (v : Value) : ℚ :=
  (vs.count v : ℚ) / (vs.length : ℚ)

/-- The remote service, as seen by the notebook: `trainResult` maps a
generator name and its training data to an opaque generator id;
`probeResult` maps a generator id, an optional size and an optional
seed dataframe to the returned tabular data.  Nothing is assumed about
these functions. -/
structure Oracle where
  trainResult : String → DataFrame → Nat
  probeResult : Nat → Option Nat → Option DataFrame → DataFrame

/-- The values computed by one execution of the conditional-generation
notebook. -/
structure CondGenRun where
  seed : DataFrame
  syn : DataFrame
  df : DataFrame
  df_seed : DataFrame
  syn_partial : DataFrame
deriving DecidableEq, Repr

/-- One execution of the conditional-generation notebook on fetched
census and AirBnB data, against the remote service `o`, starting from
pseudo-random state `st0`: train the census generator; `np.random.seed(1)`;
build the seed dataframe of 48842 `sex`/`income` draws with
`p_inc = (df.income == ">50K").mean()`; probe with that seed;
pre-process the AirBnB data; train the AirBnB generator; probe with
`df_seed`. -/
def runCondGen (census airbnb : DataFrame) (o : Oracle) (_st0 : PrngState) : CondGenRun :=
  let g := o.trainResult "Conditional Generation Tutorial Census" census
  let st := npSeed 1
  let p_inc := seriesEqMean (census.getCol "income") (.vStr ">50K")
  let sexDraw := npChoiceList "Male" "Female" (1 / 2) 48842 st
  let incDraw := npChoiceList "<=50K" ">50K" (1 - p_inc) 48842 sexDraw.2
  let seed : DataFrame :=
    ⟨[("sex", sexDraw.1.map Value.vStr), ("income", incDraw.1.map Value.vStr)]⟩
  let syn := o.probeResult g none (some seed)
  let pre := airbnbPreprocess airbnb
  let g_airbnb := o.trainResult "Conditional Generation Tutorial AirBnB" pre.1
  let syn_partial := o.probeResult g_airbnb none (some pre.2)
  { seed := seed, syn := syn, df := pre.1, df_seed := pre.2, syn_partial := syn_partial }

/-- getting-started.ipynb: the seed dataframe
`pd.DataFrame({"age": [24] * 1_000, "native_country": ["Mexico"] * 1_000})`
passed to the conditional `probe`. -/
def gsSeedDataFrame : DataFrame :=
  ⟨[("age", List.replicate 1000 (Value.vNum "24")),
    ("native_country", List.replicate 1000 (Value.vStr "Mexico"))]⟩

/-! ### Concrete instances used to witness the theorems below -/

/-- A small stand-in for the fetched census CSV. -/
def censusExample : DataFrame :=
  ⟨[("age", [Value.vNum "39", Value.vNum "50"]),
    ("sex", [Value.vStr "Male", Value.vStr "Female"]),
    ("income", [Value.vStr "<=50K", Value.vStr ">50K"]),
    ("native_country", [Value.vStr "United-States", Value.vStr "Mexico"])]⟩

/-- A small stand-in for the fetched AirBnB CSV. -/
def airbnbExample : DataFrame :=
  ⟨[("neighbourhood_group", [Value.vStr "Manhattan", Value.vStr "Manhattan"]),
    ("neighbourhood", [Value.vStr "Harlem", Value.vStr "Midtown"]),
    ("latitude", [Value.vNum "40.64749", Value.vNum "40.75362"]),
    ("longitude", [Value.vNum "-73.97237", Value.vNum "-73.98377"]),
    ("price", [Value.vNum "149", Value.vNum "225"])]⟩

/-- One possible remote service. -/
def oracleA : Oracle :=
  { trainResult := fun _ _ => 0
    probeResult := fun _ _ _ => DataFrame.empty }

/-- A remote service behaving differently from `oracleA`. -/
def oracleB : Oracle :=
  { trainResult := fun _ _ => 1
    probeResult := fun _ _ _ => ⟨[("sex", [Value.vStr "Male"])]⟩ }

/-- A one-object heap holding the example AirBnB dataframe. -/
def exampleHeap : Heap := [airbnbExample]

/-! ### Theorems -/

theorem copy_eq (d : DataFrame) : d.copy = d := rfl

theorem find?_key_append_single (l : List (String × List Value)) (c : String)
    (vs : List Value) (h : ¬ c ∈ l.map Prod.fst) :
    (l ++ [(c, vs)]).find? (fun p => p.1 = c) = some (c, vs) := by
  induction l with
  | nil => simp
  | cons p ps ih =>
      simp only [List.map_cons, List.mem_cons] at h
      push_neg at h
      rw [List.cons_append, List.find?_cons_of_neg, ih h.2]
      simp [Ne.symm h.1]

theorem getCol_setCol_fresh (d : DataFrame) (c : String) (vs : List Value)
    (h : ¬ c ∈ d.colNames) : (d.setCol c vs).getCol c = vs := by
  unfold DataFrame.setCol
  rw [if_neg h]
  unfold DataFrame.getCol
  rw [find?_key_append_single _ _ _ h]
  rfl

theorem find?_key_filter (l : List (String × List Value)) (cs : List String)
    (c : String) (hc : ¬ c ∈ cs) :
    (l.filter (fun p => ¬ p.1 ∈ cs)).find? (fun p => p.1 = c) =
      l.find? (fun p => p.1 = c) := by
  induction l with
  | nil => rfl
  | cons p ps ih =>
      by_cases hp : p.1 = c
      · have hpc : ¬ p.1 ∈ cs := by rw [hp]; exact hc
        rw [List.filter_cons_of_pos (by simpa using hpc),
          List.find?_cons_of_pos _ (by simpa using hp),
          List.find?_cons_of_pos _ (by simpa using hp)]
      · by_cases hq : p.1 ∈ cs
        · rw [List.filter_cons_of_neg (by simpa using hq), ih,
            List.find?_cons_of_neg _ (by simpa using hp)]
        · rw [List.filter_cons_of_pos (by simpa using hq),
            List.find?_cons_of_neg _ (by simpa using hp),
            List.find?_cons_of_neg _ (by simpa using hp), ih]

theorem getCol_dropCols_of_not_mem (d : DataFrame) (cs : List String) (c : String)
    (hc : ¬ c ∈ cs) : (d.dropCols cs).getCol c = d.getCol c := by
  unfold DataFrame.dropCols DataFrame.getCol
  rw [find?_key_filter _ _ _ hc]

theorem colNames_setCol_fresh (d : DataFrame) (c : String) (vs : List Value)
    (h : ¬ c ∈ d.colNames) :
    (d.setCol c vs).colNames = d.colNames ++ [c] := by
  unfold DataFrame.setCol
  rw [if_neg h]
  unfold DataFrame.colNames
  simp

theorem mem_colNames_dropCols (d : DataFrame) (cs : List String) (c : String) :
    c ∈ (d.dropCols cs).colNames ↔ c ∈ d.colNames ∧ ¬ c ∈ cs := by
  unfold DataFrame.dropCols DataFrame.colNames
  constructor
  · intro hmem
    rcases List.mem_map.1 hmem with ⟨p, hp, rfl⟩
    rcases List.mem_filter.1 hp with ⟨hpl, hqp⟩
    exact ⟨List.mem_map.2 ⟨p, hpl, rfl⟩, by simpa using hqp⟩
  · rintro ⟨hmem, hno⟩
    rcases List.mem_map.1 hmem with ⟨p, hp, rfl⟩
    exact List.mem_map.2 ⟨p, List.mem_filter.2 ⟨hp, by simpa using hno⟩, rfl⟩

theorem colNames_select (d : DataFrame) (cs : List String) :
    (d.select cs).colNames = cs := by
  unfold DataFrame.select DataFrame.colNames
  simp [List.map_map, Function.comp_def]

theorem read_alloc_lt (h : Heap) (d : DataFrame) (r : Nat) (hr : r < List.length h) :
    Heap.read (h.alloc d).1 r = h.read r := by
  unfold Heap.alloc Heap.read
  exact List.getD_append _ _ _ _ hr

theorem read_write_ne (h : Heap) (w : Nat) (d : DataFrame) (r : Nat) (hne : w ≠ r) :
    Heap.read (h.write w d) r = h.read r := by
  unfold Heap.write Heap.read
  rw [List.getD_eq_getElem?_getD, List.getElem?_set_ne hne, ← List.getD_eq_getElem?_getD]

theorem latLongSeries_eq_zipWith (d : DataFrame) :
    latLongSeries d =
      List.zipWith (fun a b => Value.vStr (a.render ++ ", " ++ b.render))
        (d.getCol "latitude") (d.getCol "longitude") := by
  unfold latLongSeries seriesAddSeries seriesAddScalar seriesAstypeStr
  generalize d.getCol "latitude" = xs
  generalize d.getCol "longitude" = ys
  induction xs generalizing ys with
  | nil => simp
  | cons x xs ih =>
      cases ys with
      | nil => simp
      | cons y ys =>
          simp only [List.map_cons, List.zipWith_cons_cons, ih]
          simp [Value.astypeStr, Value.render, String.append_assoc]

/-- C2: every invocation of `train` in the repository passes a config
of shape `{name, tables}` in which each element of `tables` is a
mapping containing the keys `name` and `data`, optionally `columns`
and `tabular_model_configuration`, and no other keys. -/
theorem train_config_shape_ok :
    allCalls.all SdkCall.trainConfigShapeOK = true := by decide

/-- C3: every invocation of `probe` in the repository passes a
generator and at most one of the optional arguments `size` and `seed`
— never both — and the returned value is used directly as a dataframe
(shape, sampling, column selection, display, plotting). -/
theorem probe_calls_shape_ok :
    allCalls.all SdkCall.probeShapeOK = true := by decide

/-- C4: `generate` is invoked exactly once in the repository, with a
generator and `size = 100000`, and the returned handle's tabular data
is obtained only through its `.data()` accessor. -/
theorem generate_called_once_with_size_100000 :
    allCalls.filter (fun c => SdkCall.methodName c = "generate") =
      [SdkCall.generate "g" 100000 "sd" ["data"]] := by decide

/-- C5: every column configuration entry consists of exactly the keys
`name` and `model_encoding_type`, every encoding type used is one of
`TABULAR_CATEGORICAL`, `TABULAR_NUMERIC_AUTO`, `TABULAR_DATETIME`,
`TABULAR_LAT_LONG`, and every `tabular_model_configuration` sets only
`max_training_time`, with a positive number of minutes. -/
theorem column_entries_and_model_configs_ok :
    allCalls.all SdkCall.columnAndModelConfigOK = true := by decide

/-- C6 counterexample: in the conditional-generation notebook the set
of methods invoked on the SDK object is {train, probe} — `generate` is
never called there — so the per-notebook method set is not exactly
{train, probe, generate}. -/
theorem condgen_methods_not_exactly_three :
    listSetEq (callMethods condGenCalls) ["train", "probe", "generate"] = false := by decide

/-- C6 (amended): in each notebook the set of methods invoked on the
SDK object is a subset of {train, probe, generate}, and over the whole
repository that set is exactly {train, probe, generate}; no other
remote-procedure call is made against an SDK object. -/
theorem sdk_methods_subset_and_union_exact :
    (callMethods gettingStartedCalls).all (fun m => m ∈ ["train", "probe", "generate"]) = true ∧
    (callMethods condGenCalls).all (fun m => m ∈ ["train", "probe", "generate"]) = true ∧
    listSetEq (callMethods allCalls) ["train", "probe", "generate"] = true :=
  ⟨by decide, by decide, by decide⟩

/-- C7: every `train` call either explicitly passes `start=True` and
`wait=True` or omits both arguments; with the spec's declared defaults
(`True`) the effective `start` and `wait` of every training call are
true, and in each notebook every generator passed to `probe` or
`generate` was bound by an earlier `train` call in program order. -/
theorem train_waits_and_generators_trained_before_use :
    allCalls.all SdkCall.trainWaitsExplicitOrDefault = true ∧
    allCalls.all (fun c => SdkCall.effectiveStart c && SdkCall.effectiveWait c) = true ∧
    trainedBeforeUse gettingStartedCalls [] = true ∧
    trainedBeforeUse condGenCalls [] = true :=
  ⟨by decide, by decide, by decide, by decide⟩

/-- C1 (amended): the conditional-generation notebook does contain
deterministic local logic — the seed dataframe built after
`np.random.seed(1)`, the pre-processed AirBnB dataframe and the
`df_seed` selection are functions of the fetched CSV data alone: two
executions against arbitrary remote services and arbitrary initial
pseudo-random states produce identical values for them. -/
theorem condgen_local_values_deterministic
    (census airbnb : DataFrame) (o₁ o₂ : Oracle) (s₁ s₂ : PrngState) :
    (runCondGen census airbnb o₁ s₁).seed = (runCondGen census airbnb o₂ s₂).seed ∧
    (runCondGen census airbnb o₁ s₁).df = (runCondGen census airbnb o₂ s₂).df ∧
    (runCondGen census airbnb o₁ s₁).df_seed = (runCondGen census airbnb o₂ s₂).df_seed :=
  ⟨rfl, rfl, rfl⟩

/-- C1 counterexample: two remote services that demonstrably differ
(`oracleA` and `oracleB` return different generator ids for the very
census training call) still yield the identical, explicitly computable
`df_seed` dataframe — a locally computed output value that does not
depend on the remote model-training and sampling service. -/
theorem condgen_df_seed_independent_of_service :
    oracleA.trainResult "Conditional Generation Tutorial Census" censusExample ≠
      oracleB.trainResult "Conditional Generation Tutorial Census" censusExample ∧
    (runCondGen censusExample airbnbExample oracleA 0).df_seed =
      (runCondGen censusExample airbnbExample oracleB 99).df_seed ∧
    (runCondGen censusExample airbnbExample oracleA 0).df_seed =
      ⟨[("neighbourhood", [Value.vStr "Harlem", Value.vStr "Midtown"]),
        ("LAT_LONG", [Value.vStr "40.64749, -73.97237", Value.vStr "40.75362, -73.98377"])]⟩ :=
  ⟨by decide, rfl, by decide⟩

/-- C9: the AirBnB pre-processing cell operates on a copy: for any
valid heap reference of `df_orig`, the object at that reference after
the cell is the very dataframe it was before — in particular all its
columns (including `latitude` and `longitude`) and all their values
are unchanged, so `df_orig` can still be used for plotting. -/
theorem airbnb_cell_leaves_df_orig_unchanged (h : Heap) (r : Nat)
    (hr : r < List.length h) :
    ((airbnbPreprocessCell h r).1).read r = h.read r ∧
    (((airbnbPreprocessCell h r).1).read r).colNames = (h.read r).colNames ∧
    ∀ c, (((airbnbPreprocessCell h r).1).read r).getCol c = (h.read r).getCol c := by
  have key : ((airbnbPreprocessCell h r).1).read r = h.read r := by
    unfold airbnbPreprocessCell
    dsimp only
    rw [read_alloc_lt, read_alloc_lt, read_write_ne, read_alloc_lt]
    all_goals
      try simp only [Heap.alloc, Heap.write, List.append_eq, List.length_append,
        List.length_set, List.length_cons, List.length_nil]
    all_goals omega
  exact ⟨key, by rw [key], fun c => by rw [key]⟩

/-- C9 witness: a one-object heap with the example AirBnB dataframe at
reference 0. -/
theorem airbnb_cell_leaves_df_orig_unchanged_witness :
    0 < List.length exampleHeap ∧
    (((airbnbPreprocessCell exampleHeap 0).1).read 0 = exampleHeap.read 0 ∧
     (((airbnbPreprocessCell exampleHeap 0).1).read 0).colNames = (exampleHeap.read 0).colNames ∧
     ∀ c, (((airbnbPreprocessCell exampleHeap 0).1).read 0).getCol c =
        (exampleHeap.read 0).getCol c) :=
  ⟨by decide, airbnb_cell_leaves_df_orig_unchanged exampleHeap 0 (by decide)⟩

/-- C10: after the AirBnB pre-processing, the `LAT_LONG` column is the
row-wise concatenation of the string form of the original latitude,
the separator `", "` and the string form of the original longitude,
and the resulting column set is the original one with `latitude` and
`longitude` removed and `LAT_LONG` added. -/
theorem airbnb_preprocess_latlong_correct (d : DataFrame)
    (hLL : ¬ "LAT_LONG" ∈ d.colNames) :
    ((airbnbPreprocess d).1.getCol "LAT_LONG" =
        List.zipWith (fun a b => Value.vStr (a.render ++ ", " ++ b.render))
          (d.getCol "latitude") (d.getCol "longitude")) ∧
    (∀ (i : Nat) (a b : Value), (d.getCol "latitude")[i]? = some a →
        (d.getCol "longitude")[i]? = some b →
        ((airbnbPreprocess d).1.getCol "LAT_LONG")[i]? =
          some (Value.vStr (a.render ++ ", " ++ b.render))) ∧
    ∀ c, c ∈ (airbnbPreprocess d).1.colNames ↔
        ((c ∈ d.colNames ∧ c ≠ "latitude" ∧ c ≠ "longitude") ∨ c = "LAT_LONG") := by
  have hdf : (airbnbPreprocess d).1 =
      (d.setCol "LAT_LONG" (latLongSeries d)).dropCols ["latitude", "longitude"] := rfl
  have hcol : (airbnbPreprocess d).1.getCol "LAT_LONG" =
      List.zipWith (fun a b => Value.vStr (a.render ++ ", " ++ b.render))
        (d.getCol "latitude") (d.getCol "longitude") := by
    rw [hdf, getCol_dropCols_of_not_mem _ _ _ (by decide),
      getCol_setCol_fresh _ _ _ hLL, latLongSeries_eq_zipWith]
  refine ⟨hcol, ?_, ?_⟩
  · intro i a b ha hb
    rw [hcol, List.getElem?_zipWith]
    simp [ha, hb]
  · intro c
    rw [hdf, mem_colNames_dropCols, colNames_setCol_fresh _ _ _ hLL]
    by_cases hcLL : c = "LAT_LONG"
    · subst hcLL
      simp
    · simp only [List.mem_append, List.mem_cons, List.mem_singleton,
        List.not_mem_nil, or_false]
      tauto

/-- C10 witness: the example AirBnB dataframe, whose columns do not
yet contain `LAT_LONG`. -/
theorem airbnb_preprocess_latlong_correct_witness :
    (¬ "LAT_LONG" ∈ airbnbExample.colNames) ∧
    (((airbnbPreprocess airbnbExample).1.getCol "LAT_LONG" =
        List.zipWith (fun a b => Value.vStr (a.render ++ ", " ++ b.render))
          (airbnbExample.getCol "latitude") (airbnbExample.getCol "longitude")) ∧
     (∀ (i : Nat) (a b : Value), (airbnbExample.getCol "latitude")[i]? = some a →
        (airbnbExample.getCol "longitude")[i]? = some b →
        ((airbnbPreprocess airbnbExample).1.getCol "LAT_LONG")[i]? =
          some (Value.vStr (a.render ++ ", " ++ b.render))) ∧
     ∀ c, c ∈ (airbnbPreprocess airbnbExample).1.colNames ↔
        ((c ∈ airbnbExample.colNames ∧ c ≠ "latitude" ∧ c ≠ "longitude") ∨
          c = "LAT_LONG")) :=
  ⟨by decide, airbnb_preprocess_latlong_correct airbnbExample (by decide)⟩

/-- C8: every seed dataframe passed to `probe` is restricted to
selected columns of the table the generator was trained on: the census
seed's columns {sex, income} and the getting-started seed's columns
{age, native_country} are column names of the fetched census data, and
the AirBnB seed's columns {neighbourhood, LAT_LONG} are column names
of the pre-processed AirBnB training dataframe. -/
theorem probe_seed_columns_subset
    (census airbnb : DataFrame) (o : Oracle) (st : PrngState)
    (hsex : "sex" ∈ census.colNames) (hinc : "income" ∈ census.colNames)
    (hage : "age" ∈ census.colNames) (hnat : "native_country" ∈ census.colNames)
    (hnb : "neighbourhood" ∈ airbnb.colNames)
    (hLL : ¬ "LAT_LONG" ∈ airbnb.colNames) :
    (runCondGen census airbnb o st).seed.colNames ⊆ census.colNames ∧
    gsSeedDataFrame.colNames ⊆ census.colNames ∧
    (runCondGen census airbnb o st).df_seed.colNames ⊆
      (runCondGen census airbnb o st).df.colNames := by
  refine ⟨?_, ?_, ?_⟩
  · have hseed : (runCondGen census airbnb o st).seed.colNames = ["sex", "income"] := rfl
    rw [hseed]
    intro c hc
    rcases List.mem_cons.1 hc with rfl | hc
    · exact hsex
    rcases List.mem_cons.1 hc with rfl | hc
    · exact hinc
    exact absurd hc (List.not_mem_nil c)
  · have hgs : gsSeedDataFrame.colNames = ["age", "native_country"] := rfl
    rw [hgs]
    intro c hc
    rcases List.mem_cons.1 hc with rfl | hc
    · exact hage
    rcases List.mem_cons.1 hc with rfl | hc
    · exact hnat
    exact absurd hc (List.not_mem_nil c)
  · have hds : (runCondGen census airbnb o st).df_seed = (airbnbPreprocess airbnb).2 := rfl
    have hdf : (runCondGen census airbnb o st).df = (airbnbPreprocess airbnb).1 := rfl
    have hsel : (airbnbPreprocess airbnb).2 =
        (airbnbPreprocess airbnb).1.select ["neighbourhood", "LAT_LONG"] := rfl
    have hdrop : (airbnbPreprocess airbnb).1 =
        (airbnb.setCol "LAT_LONG" (latLongSeries airbnb)).dropCols
          ["latitude", "longitude"] := rfl
    rw [hds, hdf, hsel, colNames_select]
    intro c hc
    rcases List.mem_cons.1 hc with rfl | hc
    · rw [hdrop, mem_colNames_dropCols, colNames_setCol_fresh _ _ _ hLL]
      exact ⟨List.mem_append.2 (Or.inl hnb), by decide⟩
    rcases List.mem_cons.1 hc with rfl | hc
    · rw [hdrop, mem_colNames_dropCols, colNames_setCol_fresh _ _ _ hLL]
      exact ⟨List.mem_append.2 (Or.inr (List.mem_singleton.2 rfl)), by decide⟩
    exact absurd hc (List.not_mem_nil c)

/-- C8 witness: the example census and AirBnB dataframes, which carry
the required columns, against the remote service `oracleA`. -/
theorem probe_seed_columns_subset_witness :
    ("sex" ∈ censusExample.colNames ∧ "income" ∈ censusExample.colNames ∧
     "age" ∈ censusExample.colNames ∧ "native_country" ∈ censusExample.colNames ∧
     "neighbourhood" ∈ airbnbExample.colNames ∧
     ¬ "LAT_LONG" ∈ airbnbExample.colNames) ∧
    ((runCondGen censusExample airbnbExample oracleA 0).seed.colNames ⊆
        censusExample.colNames ∧
     gsSeedDataFrame.colNames ⊆ censusExample.colNames ∧
     (runCondGen censusExample airbnbExample oracleA 0).df_seed.colNames ⊆
        (runCondGen censusExample airbnbExample oracleA 0).df.colNames) :=
  ⟨by decide,
    probe_seed_columns_subset censusExample airbnbExample oracleA 0
      (by decide) (by decide) (by decide) (by decide) (by decide) (by decide)⟩

end MostlyNb
